import Mathlib

/-!
Shallow embedding of the `MissionMonitor` failsafe supervisor
(src/MissionMonitor.cpp, header fragment src/unnamed/part_000).

Modelling conventions:
* Machine integers are `Nat` with explicit reduction modulo 2^8 / 2^16 / 2^32
  where the C++ type is uint8_t / uint16_t / uint32_t (the target is an AVR
  Arduino: `int` is 16 bits, `unsigned long` is 32 bits, so the comparison
  `_lastDistanceToWaypoint == -1` matches the value 65535 and the field
  initializer `-1` of `_lastProgressMadeTimeMilliseconds` denotes 4294967295).
* Side effects on the collaborators (AudioPlayer, ServoRelay, mode-change
  command channel) are collected in an ordered `List Effect`; `Log.trace`
  calls are not observable effects and are dropped.
* `getMissionTime()` is an external monotonic clock; each handler takes the
  current reading `now` as an explicit argument and reduces it mod 2^32
  (the C++ return type is uint32_t).
-/

/-- Sound identifiers passed to `AudioPlayer::play`. -/
inductive Sound where
  | MANUAL_MODE_SOUND
  | ACRO_MODE_SOUND
  | STEERING_MODE_SOUND
  | HOLD_MODE_SOUND
  | LOITER_MODE_SOUND
  | AUTO_MODE_SOUND
  | RTL_MODE_SOUND
  | SRTL_MODE_SOUND
  | GUIDED_MODE_SOUND
  | MAVLINK_GOOD_SOUND
  | MAVLINK_BAD_SOUND
  | READY_SOUND
  | GPS_SIGNAL_LOW_SOUND
  | WRONG_DIRECTION_SOUND
  | EMERGENCY_STOP_SOUND
  deriving DecidableEq, Repr

/-- Observable outbound side effects of the supervisor, in emission order. -/
inductive Effect where
  | play (s : Sound)
  | powerRelayOn
  | powerRelayOff
  | alarmRelayOn
  | alarmRelayOff
  | sendModeChange (m : Nat)
  deriving DecidableEq, Repr

/-- Modulus of a uint32_t value. -/
def UINT32_MOD : Nat := 4294967296

/-- Modulus of a uint16_t value. -/
def UINT16_MOD : Nat := 65536

/-- Modulus of a uint8_t value. -/
def UINT8_MOD : Nat := 256

/-- Wraparound-safe unsigned 32-bit subtraction `a - b` as performed by the
C++ expressions `missionTime - _lastHeartbeatTimeMilliseconds` and
`missionTime - _lastProgressMadeTimeMilliseconds`. -/
def usub32 (a b : Nat) : Nat :=
  (a % UINT32_MOD + (UINT32_MOD - b % UINT32_MOD)) % UINT32_MOD

/-- `MAV_TYPE_GROUND_ROVER` from the MAVLink common enum. -/
def MAV_TYPE_GROUND_ROVER : Nat := 10

/-- `ROVER_MODE` numeric values from the MAVLink ardupilotmega enum; the
supervisor stores `custom_mode` cast to this enum, so the mode is a raw
32-bit number. -/
def ROVER_MODE_MANUAL : Nat := 0

def ROVER_MODE_ACRO : Nat := 1

def ROVER_MODE_STEERING : Nat := 3

def ROVER_MODE_HOLD : Nat := 4

def ROVER_MODE_LOITER : Nat := 5

def ROVER_MODE_AUTO : Nat := 10

def ROVER_MODE_RTL : Nat := 11

def ROVER_MODE_SMART_RTL : Nat := 12

def ROVER_MODE_GUIDED : Nat := 15

def ROVER_MODE_INITIALIZING : Nat := 16

def ROVER_MODE_ENUM_END : Nat := 17

/-- The mutable fields of `class MissionMonitor` together with its
construction-time configuration. -/
structure MissionMonitor where
  roverMode : Nat
  mavModeFlag : Nat
  lastDistanceToWaypoint : Nat
  lastProgressMadeTimeMilliseconds : Nat
  currentWaypointSequenceId : Nat
  lastHeartbeatTimeMilliseconds : Nat
  wrongDirection : Bool
  wrongDirectionCount : Nat
  gps1FixType : Nat
  gps2FixType : Nat
  isFailed : Bool
  firstHeartbeat : Bool
  firstTick : Bool
  secondsBeforeEmergencyStop : Nat
  lowestGpsFixTpye : Nat
  deriving DecidableEq, Repr

/-- State after construction.  The in-class initializers of the header give
`_roverMode = ROVER_MODE_INITIALIZING`, `_lastDistanceToWaypoint = -1`
(uint16_t, hence 65535), `_lastProgressMadeTimeMilliseconds = -1`
(unsigned long, hence 4294967295) and `_currentWaypointSequenceId = 0`.
Modelled from the spec: the declarations of `_wrongDirection`,
`_wrongDirectionCount`, `_gps1FixType`, `_gps2FixType`, `_isFailed`,
`_firstHeartbeat`, `_firstTick` and `_lastHeartbeatTimeMilliseconds` are
missing from the available header fragment; the spec's data-model table
gives their initial values (false / 0 / "no fix" / false / false), and
`lastHeartbeatTime` is "unset", modelled as 0 (it is never read before
`_firstHeartbeat` is true).  The constructor stores the two configuration
values. -/
def mkMissionMonitor (secondsBeforeEmergencyStop lowestGpsFixTpye : Nat) :
    MissionMonitor :=
  { roverMode := ROVER_MODE_INITIALIZING
    mavModeFlag := 0
    lastDistanceToWaypoint := 65535
    lastProgressMadeTimeMilliseconds := 4294967295
    currentWaypointSequenceId := 0
    lastHeartbeatTimeMilliseconds := 0
    wrongDirection := false
    wrongDirectionCount := 0
    gps1FixType := 0
    gps2FixType := 0
    isFailed := false
    firstHeartbeat := false
    firstTick := false
    secondsBeforeEmergencyStop := secondsBeforeEmergencyStop % UINT32_MOD
    lowestGpsFixTpye := lowestGpsFixTpye % UINT8_MOD }

/-- `MissionMonitor::play(ROVER_MODE)`: the mode-announcement switch.  The
cases `ROVER_MODE_INITIALIZING`, `ROVER_MODE_ENUM_END`, and any value not
listed in the switch, emit nothing. -/
def playModeSound (m : Nat) : List Effect :=
  if m = ROVER_MODE_MANUAL then [.play .MANUAL_MODE_SOUND]
  else if m = ROVER_MODE_ACRO then [.play .ACRO_MODE_SOUND]
  else if m = ROVER_MODE_STEERING then [.play .STEERING_MODE_SOUND]
  else if m = ROVER_MODE_HOLD then [.play .HOLD_MODE_SOUND]
  else if m = ROVER_MODE_LOITER then [.play .LOITER_MODE_SOUND]
  else if m = ROVER_MODE_AUTO then [.play .AUTO_MODE_SOUND]
  else if m = ROVER_MODE_RTL then [.play .RTL_MODE_SOUND]
  else if m = ROVER_MODE_SMART_RTL then [.play .SRTL_MODE_SOUND]
  else if m = ROVER_MODE_GUIDED then [.play .GUIDED_MODE_SOUND]
  else []

/-- `MissionMonitor::start()`: the reset routine invoked on a mode
transition. -/
def start (s : MissionMonitor) : MissionMonitor × List Effect :=
  ({ s with
      lastProgressMadeTimeMilliseconds := 0
      isFailed := false
      wrongDirection := false
      wrongDirectionCount := 0 },
   [.powerRelayOn, .alarmRelayOff])

/-- `MissionMonitor::failMission()`. -/
def failMission (s : MissionMonitor) : MissionMonitor × List Effect :=
  ({ s with isFailed := true },
   [.powerRelayOff, .alarmRelayOn, .play .EMERGENCY_STOP_SOUND])

/-- `MissionMonitor::onHeatbeat(mavlink_heartbeat_t)`.  The heartbeat fields
used are `type` (uint8_t), `custom_mode` (uint32_t) and `base_mode`
(uint8_t). -/
def onHeatbeat (s : MissionMonitor) (hbType custom_mode base_mode now : Nat) :
    MissionMonitor × List Effect :=
  let s := { s with lastHeartbeatTimeMilliseconds := now % UINT32_MOD }
  let r :=
    if hbType % UINT8_MOD = MAV_TYPE_GROUND_ROVER then
      if custom_mode % UINT32_MOD ≠ s.roverMode then
        let soundEffs := playModeSound (custom_mode % UINT32_MOD)
        let s := { s with
            mavModeFlag := base_mode % UINT8_MOD
            roverMode := custom_mode % UINT32_MOD }
        let r := start s
        (r.1, soundEffs ++ r.2)
      else (s, [])
    else (s, [])
  if r.1.firstHeartbeat = false then
    ({ r.1 with firstHeartbeat := true }, r.2 ++ [.play .MAVLINK_GOOD_SOUND])
  else r

/-- `MissionMonitor::onMissionItemReached`: the sequence field is only
logged; the handler records the progress time. -/
def onMissionItemReached (s : MissionMonitor) (now : Nat) :
    MissionMonitor × List Effect :=
  ({ s with lastProgressMadeTimeMilliseconds := now % UINT32_MOD }, [])

/-- `MissionMonitor::onNavControllerOutput(mavlink_nav_controller_output_t)`:
the progress/direction algorithm over `wp_dist` (uint16_t). -/
def onNavControllerOutput (s : MissionMonitor) (wp_dist now : Nat) :
    MissionMonitor × List Effect :=
  let d := wp_dist % UINT16_MOD
  let missionTime := now % UINT32_MOD
  let r :=
    if s.lastDistanceToWaypoint = 65535 then (true, s)
    else if s.lastDistanceToWaypoint = d then
      (if s.wrongDirection = false then true else false, s)
    else if s.lastDistanceToWaypoint < d then
      (false, { s with
          wrongDirection := true
          wrongDirectionCount := s.wrongDirectionCount + 1 })
    else (true, s)
  let s := { r.2 with lastDistanceToWaypoint := d }
  if r.1 then
    ({ s with
        lastProgressMadeTimeMilliseconds := missionTime
        wrongDirection := false
        wrongDirectionCount := 0 }, [])
  else (s, [])

/-- `MissionMonitor::onMissionCurrent(mavlink_mission_current_t)`: `seq` is
uint16_t. -/
def onMissionCurrent (s : MissionMonitor) (seq now : Nat) :
    MissionMonitor × List Effect :=
  if s.currentWaypointSequenceId ≠ seq % UINT16_MOD then
    ({ s with
        currentWaypointSequenceId := seq % UINT16_MOD
        lastDistanceToWaypoint := 65535
        lastProgressMadeTimeMilliseconds := now % UINT32_MOD }, [])
  else (s, [])

/-- `MissionMonitor::onGPSRawInt`: records the primary fix type (uint8_t). -/
def onGPSRawInt (s : MissionMonitor) (fix_type : Nat) :
    MissionMonitor × List Effect :=
  ({ s with gps1FixType := fix_type % UINT8_MOD }, [])

/-- `MissionMonitor::onGPS2Raw`: records the secondary fix type (uint8_t). -/
def onGPS2Raw (s : MissionMonitor) (fix_type : Nat) :
    MissionMonitor × List Effect :=
  ({ s with gps2FixType := fix_type % UINT8_MOD }, [])

/-- `MissionMonitor::evaluateMission()`: the per-tick evaluator. -/
def evaluateMission (s : MissionMonitor) (now : Nat) :
    MissionMonitor × List Effect :=
  let missionTime := now % UINT32_MOD
  let timeDifference := usub32 missionTime s.lastProgressMadeTimeMilliseconds
  let maxGPSFixType := max s.gps1FixType s.gps2FixType
  let stopMilliseconds := s.secondsBeforeEmergencyStop * 1000 % UINT32_MOD
  let isAutoMode : Bool := s.roverMode = ROVER_MODE_AUTO
  let isHoldMode : Bool := s.roverMode = ROVER_MODE_HOLD
  let mavlinkLost : Bool := s.firstHeartbeat &&
    decide (usub32 missionTime s.lastHeartbeatTimeMilliseconds ≥ stopMilliseconds)
  let gpsLost : Bool := maxGPSFixType < s.lowestGpsFixTpye
  let noProgress : Bool := s.lastProgressMadeTimeMilliseconds ≠ 0 &&
    decide (timeDifference ≥ stopMilliseconds)
  if s.isFailed then (s, [])
  else
    let r1 :=
      if mavlinkLost then
        let f := failMission s
        ({ f.1 with firstHeartbeat := false },
         f.2 ++ [.play .MAVLINK_BAD_SOUND])
      else (s, [])
    let r2 :=
      if isAutoMode then
        let ra :=
          if gpsLost then
            (r1.1, [.sendModeChange ROVER_MODE_HOLD, .play .GPS_SIGNAL_LOW_SOUND])
          else if noProgress then failMission r1.1
          else (r1.1, [])
        if ra.1.wrongDirectionCount = 2 then
          ({ ra.1 with wrongDirectionCount := ra.1.wrongDirectionCount + 1 },
           ra.2 ++ [.play .WRONG_DIRECTION_SOUND])
        else ra
      else if isHoldMode && !gpsLost then
        (r1.1, [.sendModeChange ROVER_MODE_AUTO])
      else (r1.1, [])
    (r2.1, r1.2 ++ r2.2)

/-- `MissionMonitor::tick()`: evaluate, then emit the one-shot ready sound. -/
def tick (s : MissionMonitor) (now : Nat) : MissionMonitor × List Effect :=
  let r := evaluateMission s now
  if r.1.firstTick = false then
    ({ r.1 with firstTick := true }, r.2 ++ [.play .READY_SOUND])
  else r

/-- Inbound telemetry events and poll calls, for whole-trace statements. -/
inductive MavEvent where
  | heartbeat (hbType custom_mode base_mode : Nat)
  | missionItemReached (seq : Nat)
  | navControllerOutput (wp_dist : Nat)
  | missionCurrent (seq : Nat)
  | gpsRawInt (fix_type : Nat)
  | gps2Raw (fix_type : Nat)
  | tickCall
  deriving DecidableEq, Repr

/-- Dispatch one event at clock reading `now`. -/
def stepEvent (s : MissionMonitor) (e : MavEvent) (now : Nat) :
    MissionMonitor × List Effect :=
  match e with
  | .heartbeat t c b => onHeatbeat s t c b now
  | .missionItemReached _ => onMissionItemReached s now
  | .navControllerOutput d => onNavControllerOutput s d now
  | .missionCurrent q => onMissionCurrent s q now
  | .gpsRawInt f => onGPSRawInt s f
  | .gps2Raw f => onGPS2Raw s f
  | .tickCall => tick s now

/-- Run a timed event trace, collecting all emitted effects in order. -/
def runEvents (s : MissionMonitor) (tr : List (MavEvent × Nat)) :
    MissionMonitor × List Effect :=
  tr.foldl (fun acc en =>
    let r := stepEvent acc.1 en.1 en.2
    (r.1, acc.2 ++ r.2)) (s, [])

/-!
Claim theorems.
-/

/-- C10: an `onMissionCurrent` event whose sequence id equals the stored
`currentWaypointSequenceId` leaves the whole supervisor state unchanged and
emits no effects. -/
theorem C10_repeated_mission_current_noop (s : MissionMonitor) (seq now : Nat)
    (h : s.currentWaypointSequenceId = seq % UINT16_MOD) :
    onMissionCurrent s seq now = (s, []) := by
  simp [onMissionCurrent, h]

/-- C10 witness: the initial state has waypoint id 0, and a repeated
announcement of waypoint 0 is a no-op. -/
theorem C10_witness :
    (mkMissionMonitor 5 3).currentWaypointSequenceId = 0 % UINT16_MOD ∧
    onMissionCurrent (mkMissionMonitor 5 3) 0 42 = (mkMissionMonitor 5 3, []) :=
  ⟨by decide, C10_repeated_mission_current_noop (mkMissionMonitor 5 3) 0 42 (by decide)⟩

/-- C9: a heartbeat whose `type` field is not `MAV_TYPE_GROUND_ROVER` still
records the heartbeat time and still delivers the one-shot first-heartbeat
sound, but performs no mode transition and no reset: every other field —
in particular `isFailed` — keeps its previous value, so a non-rover
heartbeat can never clear the failed latch. -/
theorem C9_non_rover_heartbeat (s : MissionMonitor) (t c b now : Nat)
    (h : t % UINT8_MOD ≠ MAV_TYPE_GROUND_ROVER) :
    onHeatbeat s t c b now =
      ({ s with
          lastHeartbeatTimeMilliseconds := now % UINT32_MOD
          firstHeartbeat := true },
       if s.firstHeartbeat then [] else [.play .MAVLINK_GOOD_SOUND]) ∧
    (onHeatbeat s t c b now).1.isFailed = s.isFailed ∧
    (onHeatbeat s t c b now).1.roverMode = s.roverMode := by
  cases s with
  | mk rm mf ld lp cw lh wd wc g1 g2 fl fh ft se lo =>
    cases fh <;> simp [onHeatbeat, h]

/-- C9 witness: a fixed-wing heartbeat (type 1) in AUTO custom mode, arriving
while the failed latch is set, leaves the latch set and the stored mode
unchanged. -/
theorem C9_witness :
    (1 : Nat) % UINT8_MOD ≠ MAV_TYPE_GROUND_ROVER ∧
    (onHeatbeat { mkMissionMonitor 5 3 with isFailed := true, roverMode := 4 }
        1 10 0 1000 =
      ({ { mkMissionMonitor 5 3 with isFailed := true, roverMode := 4 } with
          lastHeartbeatTimeMilliseconds := 1000 % UINT32_MOD
          firstHeartbeat := true },
       if ({ mkMissionMonitor 5 3 with isFailed := true, roverMode := 4 } :
            MissionMonitor).firstHeartbeat then []
       else [.play .MAVLINK_GOOD_SOUND]) ∧
    (onHeatbeat { mkMissionMonitor 5 3 with isFailed := true, roverMode := 4 }
        1 10 0 1000).1.isFailed =
      ({ mkMissionMonitor 5 3 with isFailed := true, roverMode := 4 } :
        MissionMonitor).isFailed ∧
    (onHeatbeat { mkMissionMonitor 5 3 with isFailed := true, roverMode := 4 }
        1 10 0 1000).1.roverMode =
      ({ mkMissionMonitor 5 3 with isFailed := true, roverMode := 4 } :
        MissionMonitor).roverMode) :=
  ⟨by decide,
   C9_non_rover_heartbeat
     { mkMissionMonitor 5 3 with isFailed := true, roverMode := 4 }
     1 10 0 1000 (by decide)⟩

/-- C1 counterexample: in AUTO mode with a stale heartbeat and degraded GPS,
the tick that invokes `failMission` via the link-loss check does NOT skip the
downstream evaluator code of the same tick: after the fail-safe effects
(power OFF, alarm ON, emergency-stop sound, link-lost sound) the evaluator
still emits a HOLD mode command and the GPS-degraded sound, refuting
"downstream evaluator code of that tick is skipped". -/
theorem C1_counterexample :
    (evaluateMission
        { mkMissionMonitor 5 3 with roverMode := 10, firstHeartbeat := true }
        5000).2 =
      [.powerRelayOff, .alarmRelayOn, .play .EMERGENCY_STOP_SOUND,
       .play .MAVLINK_BAD_SOUND, .sendModeChange 4,
       .play .GPS_SIGNAL_LOW_SOUND] ∧
    (evaluateMission
        { mkMissionMonitor 5 3 with roverMode := 10, firstHeartbeat := true }
        5000).1.isFailed = true := by
  decide

/-- C1 (amended): once the failed latch is set at the start of a tick,
`evaluateMission` performs no relay, sound or mode-command side effects and
leaves the state unchanged until a mode-change reset clears the latch;
`failMission` does set `failed = true` before its relay and sound effects,
but it does not cause the remaining evaluator code of the invoking tick to
be skipped. -/
theorem C1_failed_latch_blocks_evaluation (s : MissionMonitor) (now : Nat)
    (h : s.isFailed = true) :
    evaluateMission s now = (s, []) ∧ (failMission s).1.isFailed = true := by
  constructor
  · simp [evaluateMission, h]
  · simp [failMission]

/-- C1 witness: a latched state is left untouched by a tick at time 99999. -/
theorem C1_witness :
    ({ mkMissionMonitor 5 3 with isFailed := true } :
        MissionMonitor).isFailed = true ∧
    (evaluateMission { mkMissionMonitor 5 3 with isFailed := true } 99999 =
      ({ mkMissionMonitor 5 3 with isFailed := true }, []) ∧
    (failMission { mkMissionMonitor 5 3 with isFailed := true }).1.isFailed =
      true) :=
  ⟨by decide,
   C1_failed_latch_blocks_evaluation
     { mkMissionMonitor 5 3 with isFailed := true } 99999 (by decide)⟩

/-- C2 counterexample: a heartbeat whose vehicle type is not GROUND_ROVER
(type 1) but whose reported custom mode (10) differs from the stored mode
(4) does NOT fire the reset routine: the failed latch stays set and the
stored mode is not updated, refuting "for every heartbeat event whose
reported mode differs from the stored mode, the reset routine fires". -/
theorem C2_counterexample :
    (onHeatbeat { mkMissionMonitor 5 3 with isFailed := true, roverMode := 4 }
        1 10 0 1000).1.isFailed = true ∧
    (onHeatbeat { mkMissionMonitor 5 3 with isFailed := true, roverMode := 4 }
        1 10 0 1000).1.roverMode = 4 ∧
    (onHeatbeat { mkMissionMonitor 5 3 with isFailed := true, roverMode := 4 }
        1 10 0 1000).1.lastProgressMadeTimeMilliseconds ≠ 0 := by
  decide

/-- C2 (amended): for every GROUND_ROVER heartbeat whose reported custom mode
differs from the stored mode, the reset routine fires regardless of prior
failed state — even while failed is latched: `failed` becomes false,
`lastProgressTime` becomes 0, `wrongDirection` becomes false, the streak
becomes 0, the power relay is set ON and the alarm relay OFF, the stored
mode (and mode flags) are updated, the mode-announcement sound is emitted
(none for INITIALIZING or the terminal enum marker), and the one-shot
first-heartbeat sound is appended when still due. -/
theorem C2_rover_mode_change_resets (s : MissionMonitor) (c b now : Nat)
    (h : c % UINT32_MOD ≠ s.roverMode) :
    onHeatbeat s MAV_TYPE_GROUND_ROVER c b now =
      ({ s with
          lastHeartbeatTimeMilliseconds := now % UINT32_MOD
          mavModeFlag := b % UINT8_MOD
          roverMode := c % UINT32_MOD
          lastProgressMadeTimeMilliseconds := 0
          isFailed := false
          wrongDirection := false
          wrongDirectionCount := 0
          firstHeartbeat := true },
       playModeSound (c % UINT32_MOD) ++ [.powerRelayOn, .alarmRelayOff] ++
         (if s.firstHeartbeat then [] else [.play .MAVLINK_GOOD_SOUND])) ∧
    playModeSound ROVER_MODE_INITIALIZING = [] ∧
    playModeSound ROVER_MODE_ENUM_END = [] := by
  refine ⟨?_, by decide, by decide⟩
  cases s with
  | mk rm mf ld lp cw lh wd wc g1 g2 fl fh ft se lo =>
    cases fh <;> simp_all [onHeatbeat, start, MAV_TYPE_GROUND_ROVER, UINT8_MOD]

/-- C2 witness: a rover heartbeat switching from INITIALIZING (16) to
AUTO (10) while the failed latch is set clears the latch, re-arms the
relays, announces AUTO mode and delivers the first-heartbeat sound. -/
theorem C2_witness :
    (10 : Nat) % UINT32_MOD ≠
      ({ mkMissionMonitor 5 3 with isFailed := true } :
        MissionMonitor).roverMode ∧
    (onHeatbeat { mkMissionMonitor 5 3 with isFailed := true }
        MAV_TYPE_GROUND_ROVER 10 81 1000 =
      ({ { mkMissionMonitor 5 3 with isFailed := true } with
          lastHeartbeatTimeMilliseconds := 1000 % UINT32_MOD
          mavModeFlag := 81 % UINT8_MOD
          roverMode := 10 % UINT32_MOD
          lastProgressMadeTimeMilliseconds := 0
          isFailed := false
          wrongDirection := false
          wrongDirectionCount := 0
          firstHeartbeat := true },
       playModeSound (10 % UINT32_MOD) ++ [.powerRelayOn, .alarmRelayOff] ++
         (if ({ mkMissionMonitor 5 3 with isFailed := true } :
              MissionMonitor).firstHeartbeat then []
          else [.play .MAVLINK_GOOD_SOUND])) ∧
    playModeSound ROVER_MODE_INITIALIZING = [] ∧
    playModeSound ROVER_MODE_ENUM_END = []) :=
  ⟨by decide,
   C2_rover_mode_change_resets
     { mkMissionMonitor 5 3 with isFailed := true } 10 81 1000 (by decide)⟩

/-- C3: classification of a distance reading by `onNavControllerOutput`.
The handler emits no effects and always stores the new reading; a reading
seen while the previous distance is the unknown sentinel (65535), a strictly
smaller reading, or an equal reading while `wrongDirection` is clear, all
mark progress (progress time set to now, direction flag and streak cleared);
an equal reading while `wrongDirection` is set marks no progress and changes
nothing else; a strictly larger reading sets `wrongDirection` and increments
the streak, leaving the progress time alone.  For the reading sequence
[unknown, 100, 100, 90] from the initial state, every reading marks
progress and the streak stays 0. -/
theorem C3_progress_direction (s : MissionMonitor) (wp_dist now : Nat) :
    (onNavControllerOutput s wp_dist now).2 = [] ∧
    (onNavControllerOutput s wp_dist now).1.lastDistanceToWaypoint =
      wp_dist % UINT16_MOD ∧
    (s.lastDistanceToWaypoint = 65535 →
      (onNavControllerOutput s wp_dist now).1.lastProgressMadeTimeMilliseconds =
        now % UINT32_MOD ∧
      (onNavControllerOutput s wp_dist now).1.wrongDirection = false ∧
      (onNavControllerOutput s wp_dist now).1.wrongDirectionCount = 0) ∧
    (s.lastDistanceToWaypoint ≠ 65535 →
      s.lastDistanceToWaypoint = wp_dist % UINT16_MOD →
      (s.wrongDirection = false →
        (onNavControllerOutput s wp_dist now).1.lastProgressMadeTimeMilliseconds =
          now % UINT32_MOD ∧
        (onNavControllerOutput s wp_dist now).1.wrongDirection = false ∧
        (onNavControllerOutput s wp_dist now).1.wrongDirectionCount = 0) ∧
      (s.wrongDirection = true →
        (onNavControllerOutput s wp_dist now).1.lastProgressMadeTimeMilliseconds =
          s.lastProgressMadeTimeMilliseconds ∧
        (onNavControllerOutput s wp_dist now).1.wrongDirection = true ∧
        (onNavControllerOutput s wp_dist now).1.wrongDirectionCount =
          s.wrongDirectionCount)) ∧
    (s.lastDistanceToWaypoint ≠ 65535 →
      s.lastDistanceToWaypoint < wp_dist % UINT16_MOD →
      (onNavControllerOutput s wp_dist now).1.lastProgressMadeTimeMilliseconds =
        s.lastProgressMadeTimeMilliseconds ∧
      (onNavControllerOutput s wp_dist now).1.wrongDirection = true ∧
      (onNavControllerOutput s wp_dist now).1.wrongDirectionCount =
        s.wrongDirectionCount + 1) ∧
    (s.lastDistanceToWaypoint ≠ 65535 →
      wp_dist % UINT16_MOD < s.lastDistanceToWaypoint →
      (onNavControllerOutput s wp_dist now).1.lastProgressMadeTimeMilliseconds =
        now % UINT32_MOD ∧
      (onNavControllerOutput s wp_dist now).1.wrongDirection = false ∧
      (onNavControllerOutput s wp_dist now).1.wrongDirectionCount = 0) ∧
    ((runEvents (mkMissionMonitor 5 3)
        [(.navControllerOutput 65535, 1)]).1.lastProgressMadeTimeMilliseconds
        = 1 ∧
     (runEvents (mkMissionMonitor 5 3)
        [(.navControllerOutput 65535, 1), (.navControllerOutput 100, 2)]
        ).1.lastProgressMadeTimeMilliseconds = 2 ∧
     (runEvents (mkMissionMonitor 5 3)
        [(.navControllerOutput 65535, 1), (.navControllerOutput 100, 2),
         (.navControllerOutput 100, 3)]).1.lastProgressMadeTimeMilliseconds
        = 3 ∧
     (runEvents (mkMissionMonitor 5 3)
        [(.navControllerOutput 65535, 1), (.navControllerOutput 100, 2),
         (.navControllerOutput 100, 3), (.navControllerOutput 90, 4)]
        ).1.lastProgressMadeTimeMilliseconds = 4 ∧
     (runEvents (mkMissionMonitor 5 3)
        [(.navControllerOutput 65535, 1), (.navControllerOutput 100, 2),
         (.navControllerOutput 100, 3), (.navControllerOutput 90, 4)]
        ).1.wrongDirectionCount = 0 ∧
     (runEvents (mkMissionMonitor 5 3)
        [(.navControllerOutput 65535, 1), (.navControllerOutput 100, 2),
         (.navControllerOutput 100, 3), (.navControllerOutput 90, 4)]
        ).1.wrongDirection = false) := by
  refine ⟨?_, ?_, ?_, ?_, ?_, ?_, by decide⟩
  · simp only [onNavControllerOutput]
    split_ifs <;> rfl
  · simp only [onNavControllerOutput]
    split_ifs <;> rfl
  · intro h1
    simp [onNavControllerOutput, h1]
  · intro h1 h2
    refine ⟨fun h3 => ?_, fun h3 => ?_⟩ <;> simp_all [onNavControllerOutput]
  · intro h1 h2
    have h3 : s.lastDistanceToWaypoint ≠ wp_dist % UINT16_MOD :=
      Nat.ne_of_lt h2
    simp [onNavControllerOutput, h1, h2, h3]
  · intro h1 h2
    have h3 : s.lastDistanceToWaypoint ≠ wp_dist % UINT16_MOD :=
      (Nat.ne_of_lt h2).symm
    have h4 : ¬ s.lastDistanceToWaypoint < wp_dist % UINT16_MOD :=
      Nat.not_lt_of_gt h2
    simp [onNavControllerOutput, h1, h3, h4]

/-- C3 witness: in the initial state the previous distance is the unknown
sentinel, so a reading of 100 at time 7 marks progress. -/
theorem C3_witness :
    (onNavControllerOutput (mkMissionMonitor 5 3)
        100 7).1.lastProgressMadeTimeMilliseconds = 7 % UINT32_MOD ∧
    (onNavControllerOutput (mkMissionMonitor 5 3) 100 7).1.wrongDirection =
      false ∧
    (onNavControllerOutput (mkMissionMonitor 5 3) 100 7).1.wrongDirectionCount
      = 0 :=
  (C3_progress_direction (mkMissionMonitor 5 3) 100 7).2.2.1 (by decide)

/-- C4 counterexample: the freshly constructed state — reachable with no
events at all — holds the nonzero sentinel 4294967295 in
`lastProgressMadeTimeMilliseconds`, which is not a timestamp armed by any
progress or waypoint-change event (none has occurred), refuting "any
nonzero value is a real timestamp armed by a progress or waypoint-change
event"; and a waypoint-change event processed at clock reading 0 writes the
value 0 without any mode-change reset, refuting "its value 0 arises only
from a mode-change reset". -/
theorem C4_counterexample :
    (mkMissionMonitor 5 3).lastProgressMadeTimeMilliseconds = 4294967295 ∧
    (mkMissionMonitor 5 3).lastProgressMadeTimeMilliseconds ≠ 0 ∧
    (onMissionCurrent (mkMissionMonitor 5 3)
        1 0).1.lastProgressMadeTimeMilliseconds = 0 := by
  decide

/-- C4 (amended): the value 0 of `lastProgressMadeTimeMilliseconds` disarms
the stalled-progress check: at every tick taken with the latch clear and
link loss not triggered, the mission is not failed and no emergency-stop
effect is emitted, regardless of elapsed time; the mode-change reset writes
0, and a progress event writes the current 32-bit clock reading.  (The
initial field value, however, is the max-unsigned sentinel 4294967295, which
is nonzero without any arming event, and an arming event at clock reading 0
writes the disarmed value 0.) -/
theorem C4_zero_disarms_progress_check (s : MissionMonitor) (now : Nat)
    (h0 : s.lastProgressMadeTimeMilliseconds = 0)
    (h1 : s.isFailed = false)
    (h2 : s.firstHeartbeat = false) :
    (evaluateMission s now).1.isFailed = false ∧
    Effect.play .EMERGENCY_STOP_SOUND ∉ (evaluateMission s now).2 ∧
    (start s).1.lastProgressMadeTimeMilliseconds = 0 ∧
    (onMissionItemReached s now).1.lastProgressMadeTimeMilliseconds =
      now % UINT32_MOD := by
  cases s with
  | mk rm mf ld lp cw lh wd wc g1 g2 fl fh ft se lo =>
    subst h0; subst h1; subst h2
    refine ⟨?_, ?_, by simp [start], by simp [onMissionItemReached]⟩ <;>
      simp [evaluateMission] <;> split_ifs <;> simp_all

/-- C4 witness: in AUTO mode with a healthy GPS fix, a disarmed progress
timer and no heartbeat seen, a tick at clock reading 999999999 leaves the
mission unfailed and emits no emergency stop. -/
theorem C4_witness :
    ({ mkMissionMonitor 5 3 with
        lastProgressMadeTimeMilliseconds := 0, roverMode := 10,
        gps1FixType := 3 } :
      MissionMonitor).lastProgressMadeTimeMilliseconds = 0 ∧
    ((evaluateMission
        { mkMissionMonitor 5 3 with
            lastProgressMadeTimeMilliseconds := 0, roverMode := 10,
            gps1FixType := 3 } 999999999).1.isFailed = false ∧
    Effect.play .EMERGENCY_STOP_SOUND ∉
      (evaluateMission
        { mkMissionMonitor 5 3 with
            lastProgressMadeTimeMilliseconds := 0, roverMode := 10,
            gps1FixType := 3 } 999999999).2 ∧
    (start { mkMissionMonitor 5 3 with
        lastProgressMadeTimeMilliseconds := 0, roverMode := 10,
        gps1FixType := 3 }).1.lastProgressMadeTimeMilliseconds = 0 ∧
    (onMissionItemReached { mkMissionMonitor 5 3 with
        lastProgressMadeTimeMilliseconds := 0, roverMode := 10,
        gps1FixType := 3 } 999999999).1.lastProgressMadeTimeMilliseconds =
      999999999 % UINT32_MOD) :=
  ⟨by decide,
   C4_zero_disarms_progress_check
     { mkMissionMonitor 5 3 with
         lastProgressMadeTimeMilliseconds := 0, roverMode := 10,
         gps1FixType := 3 } 999999999 (by decide) (by decide) (by decide)⟩

/-- C5: if a heartbeat has been seen and the elapsed time since the last
heartbeat reaches the emergency-stop timeout, a tick taken with the latch
clear invokes `failMission` — the failed latch is set and the first four
emitted effects are power relay OFF, alarm relay ON, the emergency-stop
sound and the link-lost sound — and `firstHeartbeat` is cleared.  No
hypothesis constrains the vehicle mode: the check fires in any mode. -/
theorem C5_link_loss_failsafe (s : MissionMonitor) (now : Nat)
    (h1 : s.isFailed = false)
    (h2 : s.firstHeartbeat = true)
    (h3 : s.secondsBeforeEmergencyStop * 1000 % UINT32_MOD ≤
      usub32 (now % UINT32_MOD) s.lastHeartbeatTimeMilliseconds) :
    (evaluateMission s now).1.isFailed = true ∧
    (evaluateMission s now).1.firstHeartbeat = false ∧
    (evaluateMission s now).2.take 4 =
      [.powerRelayOff, .alarmRelayOn, .play .EMERGENCY_STOP_SOUND,
       .play .MAVLINK_BAD_SOUND] := by
  cases s with
  | mk rm mf ld lp cw lh wd wc g1 g2 fl fh ft se lo =>
    subst h1; subst h2
    simp only [evaluateMission, failMission] at h3 ⊢
    simp [h3]
    split_ifs <;> simp_all

/-- C5 witness: in INITIALIZING mode (showing the check is mode-independent),
with a heartbeat seen at clock 0 and a tick at clock 5000 against a
5-second timeout, the mission fails with the fail-safe effect sequence. -/
theorem C5_witness :
    ({ mkMissionMonitor 5 3 with firstHeartbeat := true } :
        MissionMonitor).isFailed = false ∧
    ({ mkMissionMonitor 5 3 with firstHeartbeat := true } :
        MissionMonitor).firstHeartbeat = true ∧
    ((evaluateMission { mkMissionMonitor 5 3 with firstHeartbeat := true }
        5000).1.isFailed = true ∧
    (evaluateMission { mkMissionMonitor 5 3 with firstHeartbeat := true }
        5000).1.firstHeartbeat = false ∧
    (evaluateMission { mkMissionMonitor 5 3 with firstHeartbeat := true }
        5000).2.take 4 =
      [.powerRelayOff, .alarmRelayOn, .play .EMERGENCY_STOP_SOUND,
       .play .MAVLINK_BAD_SOUND]) :=
  ⟨by decide, by decide,
   C5_link_loss_failsafe { mkMissionMonitor 5 3 with firstHeartbeat := true }
     5000 (by decide) (by decide) (by decide)⟩

/-- C6 counterexample: in HOLD mode with a healthy GPS fix but the failed
latch set, a tick emits nothing at all — in particular no AUTO mode
request — refuting "whenever the mode is HOLD and gpsLost is false, the
tick sends an AUTO mode request, a recovery path independent of the failed
latch". -/
theorem C6_counterexample :
    evaluateMission
        { mkMissionMonitor 5 3 with
            roverMode := 4, isFailed := true, gps1FixType := 3 } 0 =
      ({ mkMissionMonitor 5 3 with
          roverMode := 4, isFailed := true, gps1FixType := 3 }, []) := by
  decide

set_option maxHeartbeats 1000000 in
/-- C6 (amended): while the failed latch is clear, the mode-recovery
commands are level-triggered: in AUTO mode with the best GPS fix below the
threshold every tick emits a HOLD mode request and the GPS-degraded sound,
and in HOLD mode with the fix at or above the threshold every tick emits an
AUTO mode request; the tick never changes the mode or fix fields the
conditions read, so the emission repeats as long as the condition and the
clear latch persist.  (Both paths sit inside the `failed == false` guard;
neither is independent of the latch.) -/
theorem C6_level_triggered_mode_commands (s : MissionMonitor) (now : Nat)
    (h1 : s.isFailed = false) :
    (s.roverMode = ROVER_MODE_AUTO →
      max s.gps1FixType s.gps2FixType < s.lowestGpsFixTpye →
      Effect.sendModeChange ROVER_MODE_HOLD ∈ (evaluateMission s now).2 ∧
      Effect.play .GPS_SIGNAL_LOW_SOUND ∈ (evaluateMission s now).2) ∧
    (s.roverMode = ROVER_MODE_HOLD →
      ¬ max s.gps1FixType s.gps2FixType < s.lowestGpsFixTpye →
      Effect.sendModeChange ROVER_MODE_AUTO ∈ (evaluateMission s now).2) ∧
    (evaluateMission s now).1.roverMode = s.roverMode ∧
    (evaluateMission s now).1.gps1FixType = s.gps1FixType ∧
    (evaluateMission s now).1.gps2FixType = s.gps2FixType ∧
    (evaluateMission s now).1.lowestGpsFixTpye = s.lowestGpsFixTpye := by
  cases s with
  | mk rm mf ld lp cw lh wd wc g1 g2 fl fh ft se lo =>
    subst h1
    refine ⟨fun ha hg => ?_, fun hh hg => ?_, ?_, ?_, ?_, ?_⟩
    · subst ha
      simp [evaluateMission, failMission, ROVER_MODE_AUTO, ROVER_MODE_HOLD, hg]
      all_goals (split_ifs <;> simp_all)
    · subst hh
      simp [evaluateMission, failMission, ROVER_MODE_AUTO, ROVER_MODE_HOLD, hg]
    · simp only [evaluateMission, failMission]
      split_ifs <;> simp
    · simp only [evaluateMission, failMission]
      split_ifs <;> simp
    · simp only [evaluateMission, failMission]
      split_ifs <;> simp
    · simp only [evaluateMission, failMission]
      split_ifs <;> simp

/-- C6 witness: in AUTO mode with both fixes at "no fix" against threshold
3, a tick at clock 0 emits the HOLD request and the GPS-degraded sound. -/
theorem C6_witness :
    ({ mkMissionMonitor 5 3 with roverMode := 10 } :
        MissionMonitor).isFailed = false ∧
    (Effect.sendModeChange ROVER_MODE_HOLD ∈
        (evaluateMission { mkMissionMonitor 5 3 with roverMode := 10 } 0).2 ∧
      Effect.play .GPS_SIGNAL_LOW_SOUND ∈
        (evaluateMission { mkMissionMonitor 5 3 with roverMode := 10 } 0).2) :=
  ⟨by decide,
   (C6_level_triggered_mode_commands
       { mkMissionMonitor 5 3 with roverMode := 10 } 0 (by decide)).1
     (by decide) (by decide)⟩

/-- C7: the wrong-direction sound fires exactly once per streak.  At a tick
with the latch clear, AUTO mode and a streak of exactly 2, the sound is
emitted and the streak is bumped to 3; at any other streak value the sound
is never emitted by a tick.  For the reading sequence [unknown, 50, 60, 70]
after an AUTO mode change, the streak is exactly 2 at the third reading;
the next tick plays the sound exactly once and the tick after that plays
it zero times. -/
theorem C7_wrong_direction_sound_once (s : MissionMonitor) (now : Nat) :
    (s.isFailed = false → s.roverMode = ROVER_MODE_AUTO →
      s.wrongDirectionCount = 2 →
      Effect.play .WRONG_DIRECTION_SOUND ∈ (evaluateMission s now).2 ∧
      (evaluateMission s now).1.wrongDirectionCount = 3) ∧
    (s.wrongDirectionCount ≠ 2 →
      Effect.play .WRONG_DIRECTION_SOUND ∉ (evaluateMission s now).2) ∧
    ((runEvents (mkMissionMonitor 5 0)
        [(.heartbeat 10 10 0, 0), (.navControllerOutput 50, 1),
         (.navControllerOutput 60, 2), (.navControllerOutput 70, 3)]
        ).1.wrongDirectionCount = 2 ∧
     (evaluateMission (runEvents (mkMissionMonitor 5 0)
        [(.heartbeat 10 10 0, 0), (.navControllerOutput 50, 1),
         (.navControllerOutput 60, 2), (.navControllerOutput 70, 3)]).1
        4).2.count (Effect.play .WRONG_DIRECTION_SOUND) = 1 ∧
     (evaluateMission (runEvents (mkMissionMonitor 5 0)
        [(.heartbeat 10 10 0, 0), (.navControllerOutput 50, 1),
         (.navControllerOutput 60, 2), (.navControllerOutput 70, 3)]).1
        4).1.wrongDirectionCount = 3 ∧
     (evaluateMission
        (evaluateMission (runEvents (mkMissionMonitor 5 0)
          [(.heartbeat 10 10 0, 0), (.navControllerOutput 50, 1),
           (.navControllerOutput 60, 2), (.navControllerOutput 70, 3)]).1
          4).1
        5).2.count (Effect.play .WRONG_DIRECTION_SOUND) = 0) := by
  cases s with
  | mk rm mf ld lp cw lh wd wc g1 g2 fl fh ft se lo =>
    refine ⟨fun h1 h2 h3 => ?_, fun hb => ?_, by decide, by decide,
      by decide, by decide⟩
    · subst h1; subst h2; subst h3
      simp [evaluateMission, failMission, ROVER_MODE_AUTO, ROVER_MODE_HOLD]
      all_goals (split_ifs <;> simp_all)
    · simp only [evaluateMission, failMission, ROVER_MODE_AUTO,
        ROVER_MODE_HOLD]
      split_ifs <;> simp_all

/-- C7 witness: with the latch clear, AUTO mode and a streak of exactly 2,
a tick at clock 0 plays the wrong-direction sound and bumps the streak. -/
theorem C7_witness :
    ({ mkMissionMonitor 5 0 with roverMode := 10, wrongDirectionCount := 2 } :
        MissionMonitor).isFailed = false ∧
    (Effect.play .WRONG_DIRECTION_SOUND ∈
        (evaluateMission
          { mkMissionMonitor 5 0 with
              roverMode := 10, wrongDirectionCount := 2 } 0).2 ∧
      (evaluateMission
        { mkMissionMonitor 5 0 with
            roverMode := 10, wrongDirectionCount := 2 }
        0).1.wrongDirectionCount = 3) :=
  ⟨by decide,
   (C7_wrong_direction_sound_once
       { mkMissionMonitor 5 0 with roverMode := 10, wrongDirectionCount := 2 }
       0).1 (by decide) (by decide) (by decide)⟩

/-- C8 counterexample: the link-acquired sound is not a lifetime one-shot.
Trace: first heartbeat at clock 0 (sound plays), a tick at clock 5000
triggers the link-loss failsafe (which clears `firstHeartbeat`), and the
reconnect heartbeat at clock 5001 plays the link-acquired sound a second
time — refuting "emitted at the very first heartbeat ever received and
never again on any later heartbeat, regardless of intervening link-loss
failsafes". -/
theorem C8_counterexample :
    (runEvents (mkMissionMonitor 5 0)
        [(.heartbeat 10 16 0, 0), (.tickCall, 5000),
         (.heartbeat 10 16 0, 5001)]).2.count
      (Effect.play .MAVLINK_GOOD_SOUND) = 2 := by
  decide

/-- The mode-announcement switch never emits the link-acquired sound. -/
theorem playModeSound_no_mavlink_good (m : Nat) :
    Effect.play .MAVLINK_GOOD_SOUND ∉ playModeSound m := by
  simp only [playModeSound]
  split_ifs <;> simp

/-- C8 (amended): the link-acquired sound is emitted by a heartbeat exactly
when `firstHeartbeat` is false on arrival, and every heartbeat leaves
`firstHeartbeat` set; since the link-loss failsafe clears the flag, the
sound re-fires on the first heartbeat after each link loss rather than only
once in the supervisor's lifetime. -/
theorem C8_link_acquired_rearms (s : MissionMonitor) (t c b now : Nat) :
    (Effect.play .MAVLINK_GOOD_SOUND ∈ (onHeatbeat s t c b now).2 ↔
      s.firstHeartbeat = false) ∧
    (onHeatbeat s t c b now).1.firstHeartbeat = true := by
  cases s with
  | mk rm mf ld lp cw lh wd wc g1 g2 fl fh ft se lo =>
    cases fh <;>
      simp only [onHeatbeat, start] <;>
      split_ifs <;>
      simp_all [playModeSound_no_mavlink_good]

/-- C8 witness: a heartbeat arriving while `firstHeartbeat` is already set
emits no link-acquired sound and leaves the flag set. -/
theorem C8_witness :
    (Effect.play .MAVLINK_GOOD_SOUND ∈
        (onHeatbeat { mkMissionMonitor 5 0 with firstHeartbeat := true }
          10 16 0 9).2 ↔
      ({ mkMissionMonitor 5 0 with firstHeartbeat := true } :
        MissionMonitor).firstHeartbeat = false) ∧
    (onHeatbeat { mkMissionMonitor 5 0 with firstHeartbeat := true }
        10 16 0 9).1.firstHeartbeat = true :=
  C8_link_acquired_rearms
    { mkMissionMonitor 5 0 with firstHeartbeat := true } 10 16 0 9
